import Mathlib

/-!
# Verification of `lib/python/qmk/cli/cformat.py`

A shallow embedding of the QMK `cformat` subcommand: the file-selection
logic (CI changeset, explicit files, all files, branch diff), the dry-run
drift checker `find_diffs`, the in-place formatter runner `cformat_run`,
and the clang-format executable resolution `find_clang_format`.

External effects (subprocesses, the filesystem, the changeset manifest)
are passed in as an explicit environment of oracles; the observable
outputs of an invocation (return value, spawned formatter processes,
warning/error log lines, printed text) are collected in an `Outcome`
record.
-/

namespace QMK

/-! ## Python string primitives

The source manipulates paths with `str.split`, `str.startswith`,
substring containment (`in`) and `str.strip`.  These are modelled on the
character lists underlying Lean strings, matching Python semantics
(`''.split('.') == ['']`, split keeps empty segments, etc.). -/

/-- Auxiliary worker for `pySplit`: `acc` holds the current segment,
reversed. -/
def splitAux (sep : Char) : List Char → List Char → List (List Char)
  | [], acc => [acc.reverse]
  | c :: cs, acc =>
    if c = sep then acc.reverse :: splitAux sep cs [] else splitAux sep cs (c :: acc)

/-- Python `s.split(sep)` for a single-character separator. -/
def pySplit (sep : Char) (s : String) : List String :=
  (splitAux sep s.data []).map (fun l => String.mk l)

/-- Python `s.split(sep)[-1]`: the text after the last occurrence of the
separator (the whole string when the separator does not occur). -/
def pyLastSplit (sep : Char) (s : String) : String :=
  (pySplit sep s).getLastD ""

/-- Python `s.startswith(pre)`. -/
def pyStartswith (s pre : String) : Bool :=
  pre.data.isPrefixOf s.data

/-- Python `sub in s`: substring containment. -/
def pyContains (s sub : String) : Bool :=
  go sub.data s.data
where
  /-- Check `needle` against every tail of `haystack`. -/
  go (needle : List Char) : List Char → Bool
    | [] => needle.isEmpty
    | c :: cs => needle.isPrefixOf (c :: cs) || go needle cs

/-- Python `s.strip()`: drop leading and trailing whitespace. -/
def pyStrip (s : String) : String :=
  String.mk (((s.data.dropWhile Char.isWhitespace).reverse.dropWhile Char.isWhitespace).reverse)

/-! ## Module-level constants (`cformat.py` lines 15-17) -/

/-- `c_file_suffixes = ('c', 'h', 'cpp')` -/
def c_file_suffixes : List String := ["c", "h", "cpp"]

/-- `core_dirs = ('drivers', 'quantum', 'tests', 'tmk_core', 'platforms')` -/
def core_dirs : List String := ["drivers", "quantum", "tests", "tmk_core", "platforms"]

/-- `ignored = ('tmk_core/protocol/usb_hid', 'quantum/template', 'platforms/chibios')` -/
def ignored : List String := ["tmk_core/protocol/usb_hid", "quantum/template", "platforms/chibios"]

/-! ## `find_clang_format` (lines 20-28) -/

/-- The loop of `find_clang_format`: probe `clang-format-<v>` for each
version in order, returning the first one found on the search path. -/
def find_clang_format_loop (which : String → Bool) : List Nat → String
  | [] => "clang-format"
  | v :: vs =>
    let binary := "clang-format-" ++ toString v
    if which binary then binary else find_clang_format_loop which vs

/-- `find_clang_format()`: probes clang-format-7/8/9/10 in that order and
falls back to the unversioned `clang-format`.  `which` is the
`shutil.which` oracle (`true` iff the binary exists on the search
path). -/
def find_clang_format (which : String → Bool) : String :=
  find_clang_format_loop which [7, 8, 9, 10]

/-- Modelled from the spec: "probing for a small descending list of
acceptable versions and falling back to an unversioned name" — the same
probe loop but over the versions in descending order, for comparison
with `find_clang_format` as the source writes it (ascending). -/
def find_clang_format_spec_descending (which : String → Bool) : String :=
  find_clang_format_loop which [10, 9, 8, 7]

/-! ## Python exceptions and the `list + map` slip (line 55)

`cformat_run` builds its command as `clang_format + map(str, files)`.
In Python 3 `map(...)` returns a map object, not a list, and
`list.__add__` rejects it, so this expression raises `TypeError` before
`cli.run` is ever called; the surrounding `except
subprocess.CalledProcessError` clause does not catch it. -/

/-- The Python exceptions that can arise in `cformat_run`. -/
inductive PyExc where
  /-- `TypeError`, e.g. from concatenating a list with a map object. -/
  | typeErr (msg : String)
  /-- `subprocess.CalledProcessError` raised by `cli.run(..., check=True)`:
  the command, its exit code, and its captured stdout/stderr (`none` when
  `capture_output=False`). -/
  | calledProcessErr (cmd : List String) (returncode : Int)
      (stdout stderr : Option String)
deriving DecidableEq, Repr

/-- A Python value that is either a `list` of strings or a `map` object
over strings (only these two shapes occur at line 55). -/
inductive PyListLike where
  | list (xs : List String)
  | mapObject (xs : List String)

/-- Python `+` on `PyListLike`: list concatenation succeeds only when both
operands are lists; `list + map` raises `TypeError`. -/
def pyAdd : PyListLike → PyListLike → Except PyExc (List String)
  | PyListLike.list xs, PyListLike.list ys => Except.ok (xs ++ ys)
  | _, _ => Except.error (PyExc.typeErr "can only concatenate list (not \"map\") to list")

/-! ## `cformat_run` (lines 49-67) -/

/-- `cformat_run(files)`: resolve clang-format, then
`cli.run(clang_format + map(str, files), check=True)` inside a
`try/except subprocess.CalledProcessError`.  `run_returncode` is the
subprocess oracle giving the exit status of a spawned command.

Returns the function result (`Except.ok b` for `return b`,
`Except.error e` for an uncaught exception) together with the list of
commands actually spawned. -/
def cformat_run (which : String → Bool) (run_returncode : List String → Int)
    (files : List String) : Except PyExc Bool × List (List String) :=
  let clang_format := [find_clang_format which, "-i"]
  match pyAdd (PyListLike.list clang_format) (PyListLike.mapObject files) with
  | Except.error e =>
    -- TypeError raised while building the argument of cli.run: nothing is
    -- spawned and the except clause (CalledProcessError only) passes it on.
    (Except.error e, [])
  | Except.ok cmd =>
    if run_returncode cmd ≠ 0 then
      -- check=True raises CalledProcessError; caught: log and return False.
      (Except.ok false, [cmd])
    else
      (Except.ok true, [cmd])

/-! ## `find_diffs` (lines 31-45) -/

/-- `find_diffs(files)`: for each file, spawn
`[find_clang_format(), file]` piped into `diff`, and record a drift when
the diff exit status is non-zero (printing the diff text).

Oracles: `diff_returncode file` is the exit status of the `diff`
invocation for `file`; `diff_stdout file` its captured output.

Returns `(found_diffs, spawned clang-format commands in order, printed
diff texts)`. -/
def find_diffs (which : String → Bool) (diff_returncode : String → Int)
    (diff_stdout : String → String) (files : List String) :
    Bool × List (List String) × List String :=
  files.foldl
    (fun acc file =>
      if diff_returncode file ≠ 0 then
        (true, acc.2.1 ++ [[find_clang_format which, file]], acc.2.2 ++ [diff_stdout file])
      else
        (acc.1, acc.2.1 ++ [[find_clang_format which, file]], acc.2.2))
    (false, [], [])

/-! ## File selection (lines 76-117) -/

/-- The CI-changeset filter (line 86):
`[file for file in all_changed_files if file.split('.')[-1] in c_file_suffixes]`. -/
def ci_files (all_changed_files : List String) : List String :=
  all_changed_files.filter (fun file => c_file_suffixes.contains (pyLastSplit '.' file))

/-- The all-files filter (line 101):
`[file for file in all_files if not any(i in str(file) for i in ignored)]`. -/
def all_files_filter (all_files : List String) : List String :=
  all_files.filter (fun file => !(ignored.any (fun i => pyContains file i)))

/-- The lines of the git-diff output (line 112):
`git_diff.stdout.strip().split('\n')`. -/
def git_diff_lines (stdout : String) : List String :=
  pySplit '\n' (pyStrip stdout)

/-- The branch-diff selection loop (lines 112-117): keep a reported path
when it does not start with any ignored prefix string, exists on disk,
and its suffix is in `c_file_suffixes`. -/
def branch_diff_files (path_exists : String → Bool) (stdout : String) : List String :=
  (git_diff_lines stdout).foldl
    (fun files file =>
      if !(ignored.any (fun ignore => pyStartswith file ignore)) then
        if path_exists file && c_file_suffixes.contains (pyLastSplit '.' file) then
          files ++ [file]
        else
          files
      else
        files)
    []

/-! ## The `cformat` subcommand (lines 70-127) -/

/-- The parsed CLI arguments of `qmk cformat`.  `files` holds the
positional paths after `normpath` normalization by the argument
parser. -/
structure Args where
  ci : Bool
  dry_run : Bool
  base_branch : String
  all_files : Bool
  files : List String
deriving DecidableEq, Repr

/-- The external world of one invocation: the changeset manifest
(`files.json`), the `c_source_files(core_dirs)` enumeration, the git
diff subprocess, the filesystem, the search path, and the clang-format /
diff subprocesses. -/
structure Env where
  all_changed_files : List String
  c_source_files : List String
  git_diff_returncode : Int
  git_diff_stdout : String
  git_diff_stderr : String
  path_exists : String → Bool
  which : String → Bool
  diff_returncode : String → Int
  diff_stdout : String → String
  run_returncode : List String → Int

/-- How a `cformat` invocation finishes. -/
inductive CformatResult where
  /-- `return b` (the CLI framework maps `true` to exit 0, `false` to a
  non-zero exit). -/
  | ret (b : Bool)
  /-- `return git_diff.returncode` (a non-zero integer exit). -/
  | retCode (n : Int)
  /-- `exit(0)` from the empty-changeset branch. -/
  | exitZero
  /-- an exception escaped from `cformat`. -/
  | raised (e : PyExc)
deriving DecidableEq, Repr

/-- The result of the file-selection half of `cformat` (lines 80-117). -/
inductive Selection where
  /-- a candidate file list reached the sanity check. -/
  | selected (files : List String)
  /-- CI mode with no matching changeset files: `exit(0)`. -/
  | ciNoFiles
  /-- the git diff subprocess failed: `return git_diff.returncode`. -/
  | gitFailed (returncode : Int)
deriving DecidableEq, Repr

/-- The selection cascade of `cformat`: `--ci` wins, then explicit
files, then `--all-files`, then the branch diff. -/
def cformat_select (env : Env) (args : Args) : Selection :=
  if args.ci then
    let files := ci_files env.all_changed_files
    if files.isEmpty then Selection.ciNoFiles else Selection.selected files
  else if !args.files.isEmpty then
    Selection.selected args.files
  else if args.all_files then
    Selection.selected (all_files_filter env.c_source_files)
  else if env.git_diff_returncode ≠ 0 then
    Selection.gitFailed env.git_diff_returncode
  else
    Selection.selected (branch_diff_files env.path_exists env.git_diff_stdout)

/-- The `cli.log.warning` lines emitted while selecting files (argument
interpolations elided; `%s` kept as in the source format strings). -/
def cformat_warnings (args : Args) : List String :=
  if args.ci then
    if !args.files.isEmpty || args.all_files then
      ["Filename or -a passed with --ci, only formatting CI files."]
    else []
  else if !args.files.isEmpty then
    if args.all_files then ["Filenames passed with -a, only formatting: %s"] else []
  else []

/-- The observable outcome of one `cformat` invocation: its result, the
clang-format processes spawned (each as its argument list), and the
warning / error log lines and `print`ed texts, in order of emission. -/
structure Outcome where
  result : CformatResult
  spawned : List (List String)
  warnings : List String
  errors : List String
  printed : List String
deriving DecidableEq, Repr

/-- The `cformat` subcommand: select candidate files, fail the sanity
check when none were selected, then either dry-run (`find_diffs`) or
format in place (`cformat_run`). -/
def cformat (env : Env) (args : Args) : Outcome :=
  match cformat_select env args with
  | Selection.ciNoFiles =>
    { result := CformatResult.exitZero, spawned := [],
      warnings := cformat_warnings args, errors := [], printed := [] }
  | Selection.gitFailed rc =>
    { result := CformatResult.retCode rc, spawned := [],
      warnings := cformat_warnings args,
      errors := ["Error running %s"], printed := [env.git_diff_stderr] }
  | Selection.selected files =>
    if files.isEmpty then
      { result := CformatResult.ret false, spawned := [],
        warnings := cformat_warnings args,
        errors := ["No changed files detected. Use \"qmk cformat -a\" to format all files"],
        printed := [] }
    else if args.dry_run then
      let r := find_diffs env.which env.diff_returncode env.diff_stdout files
      { result := CformatResult.ret (!r.1), spawned := r.2.1,
        warnings := cformat_warnings args, errors := [], printed := r.2.2 }
    else
      match cformat_run env.which env.run_returncode files with
      | (Except.ok b, spawned) =>
        { result := CformatResult.ret b, spawned := spawned,
          warnings := cformat_warnings args,
          errors := if b then [] else ["Error formatting C code!"], printed := [] }
      | (Except.error e, spawned) =>
        { result := CformatResult.raised e, spawned := spawned,
          warnings := cformat_warnings args, errors := [], printed := [] }

/-! ## Helper lemmas -/

theorem string_mk_data (s : String) : String.mk s.data = s := rfl

theorem splitAux_of_not_mem (sep : Char) :
    ∀ (l acc : List Char), sep ∉ l → splitAux sep l acc = [acc.reverse ++ l]
  | [], _, _ => by simp [splitAux]
  | c :: cs, acc, h => by
    have hc : ¬(c = sep) := fun e => h (e ▸ List.mem_cons_self c cs)
    have hcs : sep ∉ cs := fun m => h (List.mem_cons_of_mem _ m)
    simp [splitAux, hc, splitAux_of_not_mem sep cs (c :: acc) hcs]

/-- When the separator does not occur, Python split returns the whole
string as its single (hence last) segment. -/
theorem pyLastSplit_of_not_mem (sep : Char) (s : String) (h : sep ∉ s.data) :
    pyLastSplit sep s = s := by
  simp [pyLastSplit, pySplit, splitAux_of_not_mem sep s.data [] h, string_mk_data]

/-- The `find_diffs` loop, with a generalized accumulator. -/
theorem find_diffs_foldl (w : String → Bool) (d : String → Int) (ds : String → String) :
    ∀ (l : List String) (acc : Bool × List (List String) × List String),
      l.foldl
        (fun acc file =>
          if d file ≠ 0 then
            (true, acc.2.1 ++ [[find_clang_format w, file]], acc.2.2 ++ [ds file])
          else
            (acc.1, acc.2.1 ++ [[find_clang_format w, file]], acc.2.2))
        acc
      = (acc.1 || l.any (fun f => decide (d f ≠ 0)),
         acc.2.1 ++ l.map (fun f => [find_clang_format w, f]),
         acc.2.2 ++ (l.filter (fun f => decide (d f ≠ 0))).map ds)
  | [], acc => by simp
  | x :: xs, acc => by
    simp only [List.foldl_cons]
    rw [find_diffs_foldl w d ds xs]
    split_ifs with hx
    · simp [hx, List.any_cons, List.filter_cons, List.map_cons, Bool.or_assoc,
        List.append_assoc]
    · simp only [ne_eq, not_not] at hx
      simp [hx, List.any_cons, List.filter_cons, List.map_cons, Bool.or_assoc,
        List.append_assoc]

/-- `find_diffs` returns the drift flag as a disjunction over the files,
spawns one clang-format process per file in list order, and prints the
diff of each drifted file. -/
theorem find_diffs_eq (w : String → Bool) (d : String → Int) (ds : String → String)
    (files : List String) :
    find_diffs w d ds files
      = (files.any (fun f => decide (d f ≠ 0)),
         files.map (fun f => [find_clang_format w, f]),
         (files.filter (fun f => decide (d f ≠ 0))).map ds) := by
  unfold find_diffs
  rw [find_diffs_foldl w d ds files (false, [], [])]
  simp

/-- The branch-diff selection loop, with a generalized accumulator. -/
theorem branch_diff_foldl (pe : String → Bool) :
    ∀ (l acc : List String),
      l.foldl
        (fun files file =>
          if !(ignored.any (fun ignore => pyStartswith file ignore)) then
            if pe file && c_file_suffixes.contains (pyLastSplit '.' file) then
              files ++ [file]
            else
              files
          else
            files)
        acc
      = acc ++ l.filter
          (fun file =>
            !(ignored.any (fun ignore => pyStartswith file ignore))
              && (pe file && c_file_suffixes.contains (pyLastSplit '.' file)))
  | [], _ => by simp
  | x :: xs, acc => by
    simp only [List.foldl_cons]
    rw [branch_diff_foldl pe xs]
    split_ifs with h1 h2
    · simp [h1, List.filter_cons, List.append_assoc]
      rw [if_pos (by simpa using h2)]
    · simp [h1, List.filter_cons]
      rw [if_neg (by simpa using h2)]
    · simp [h1, List.filter_cons, Bool.not_eq_true]

/-- `branch_diff_files` as a filter over the git-diff output lines. -/
theorem branch_diff_files_eq_filter (pe : String → Bool) (stdout : String) :
    branch_diff_files pe stdout
      = (git_diff_lines stdout).filter
          (fun file =>
            !(ignored.any (fun ignore => pyStartswith file ignore))
              && (pe file && c_file_suffixes.contains (pyLastSplit '.' file))) := by
  unfold branch_diff_files
  rw [branch_diff_foldl pe (git_diff_lines stdout) []]
  simp

/-- Membership in the branch-diff candidate list. -/
theorem mem_branch_diff_files (pe : String → Bool) (stdout : String) (file : String) :
    file ∈ branch_diff_files pe stdout ↔
      file ∈ git_diff_lines stdout
      ∧ (ignored.any (fun ignore => pyStartswith file ignore)) = false
      ∧ pe file = true
      ∧ c_file_suffixes.contains (pyLastSplit '.' file) = true := by
  rw [branch_diff_files_eq_filter, List.mem_filter]
  simp [Bool.and_eq_true, Bool.not_eq_true', and_assoc]

/-! ## Claims -/

/-- C1: the claim states that apply mode invokes the formatter once with the
in-place option over the whole list, returns true/false by exit status, and
lets no exception escape.  The code instead always raises `TypeError` at
`clang_format + map(str, files)` (a Python 3 `list + map` concatenation),
before any formatter process is spawned, and the surrounding
`except subprocess.CalledProcessError` clause does not catch it — the
exception escapes to the caller on every input. -/
theorem C1_cformat_run_raises (which : String → Bool)
    (run_returncode : List String → Int) (files : List String) :
    cformat_run which run_returncode files
      = (Except.error (PyExc.typeErr "can only concatenate list (not \"map\") to list"),
         []) := rfl

/-- C9 counterexample: with clang-format-7 and clang-format-10 both on the
search path, the source probes the versions in ascending order and returns
clang-format-7, whereas probing a descending list, as the claim states,
would return clang-format-10. -/
theorem C9_counterexample :
    find_clang_format (fun s => s == "clang-format-7" || s == "clang-format-10")
      = "clang-format-7"
    ∧ find_clang_format_spec_descending
        (fun s => s == "clang-format-7" || s == "clang-format-10")
      = "clang-format-10"
    ∧ find_clang_format (fun s => s == "clang-format-7" || s == "clang-format-10")
      ≠ find_clang_format_spec_descending
          (fun s => s == "clang-format-7" || s == "clang-format-10") := by decide

/-- C9 (amended): on every invocation the formatter executable is chosen by
probing the ascending version list 7, 8, 9, 10 and returning the first
versioned name found on the search path, falling back to the unversioned
name when none of them exists. -/
theorem C9_amended_ascending_probe (which : String → Bool) :
    find_clang_format which
      = ((([7, 8, 9, 10] : List Nat).map
            (fun v => "clang-format-" ++ toString v)).find? which).getD
          "clang-format" := by
  have loop : ∀ vs : List Nat,
      find_clang_format_loop which vs
        = ((vs.map (fun v => "clang-format-" ++ toString v)).find? which).getD
            "clang-format" := by
    intro vs
    induction vs with
    | nil => simp [find_clang_format_loop]
    | cons v vs ih =>
      cases hv : which ("clang-format-" ++ toString v) <;>
        simp [find_clang_format_loop, List.find?_cons, hv, ih]
  exact loop [7, 8, 9, 10]

/-- C3 counterexample: `"tests/quantum/template/a.c"` contains the ignored
entry `"quantum/template"` as a substring but does not start with it, and
BranchDiffMode includes it in the candidate list (here the diff reports it
and the file exists on disk). -/
theorem C3_counterexample :
    ("quantum/template" ∈ ignored
      ∧ pyContains "tests/quantum/template/a.c" "quantum/template" = true)
    ∧ "tests/quantum/template/a.c"
        ∈ branch_diff_files (fun _ => true) "tests/quantum/template/a.c\n" := by decide

/-- C3 (amended): every path containing an ignored entry as a substring is
excluded by AllFilesMode, but BranchDiffMode only excludes paths that start
with an ignored entry — a path merely containing one may still be
selected there. -/
theorem C3_amended_ignored_exclusion :
    (∀ (l : List String) (file : String),
      (∃ i ∈ ignored, pyContains file i = true) → file ∉ all_files_filter l)
    ∧ (∀ (pe : String → Bool) (stdout : String) (file : String),
      (∃ i ∈ ignored, pyStartswith file i = true) →
        file ∉ branch_diff_files pe stdout) := by
  constructor
  · rintro l file ⟨i, hi, hci⟩ hmem
    rw [all_files_filter, List.mem_filter] at hmem
    have hFalse : (ignored.any (fun i => pyContains file i)) = false := by
      simpa using hmem.2
    rw [List.any_eq_true.mpr ⟨i, hi, hci⟩] at hFalse
    exact Bool.true_eq_false.mp hFalse
  · rintro pe stdout file ⟨i, hi, hsi⟩ hmem
    rw [mem_branch_diff_files] at hmem
    have hFalse := hmem.2.1
    rw [List.any_eq_true.mpr ⟨i, hi, hsi⟩] at hFalse
    exact Bool.true_eq_false.mp hFalse

/-- C3 witness: the amendment applied to a path under `quantum/template` in
AllFilesMode and a path under `platforms/chibios` in BranchDiffMode. -/
theorem C3_amended_witness :
    "quantum/template/x.c" ∉ all_files_filter ["quantum/template/x.c", "quantum/core.c"]
    ∧ "platforms/chibios/x.c"
        ∉ branch_diff_files (fun _ => true) "platforms/chibios/x.c\n" :=
  ⟨C3_amended_ignored_exclusion.1 ["quantum/template/x.c", "quantum/core.c"]
      "quantum/template/x.c" ⟨"quantum/template", by decide, by decide⟩,
   C3_amended_ignored_exclusion.2 (fun _ => true) "platforms/chibios/x.c\n"
      "platforms/chibios/x.c" ⟨"platforms/chibios", by decide, by decide⟩⟩

/-- C7: a path reported by the branch diff is in the candidate list iff it
does not start with any ignored prefix string, currently exists on disk,
and its suffix is in `c_file_suffixes`; the candidate list is a sublist of
the diff output lines, so the diff output's order is kept. -/
theorem C7_branch_diff_selection (pe : String → Bool) (stdout : String) :
    List.Sublist (branch_diff_files pe stdout) (git_diff_lines stdout)
    ∧ ∀ file : String,
        file ∈ branch_diff_files pe stdout ↔
          (file ∈ git_diff_lines stdout
            ∧ (¬ ∃ i ∈ ignored, pyStartswith file i = true)
            ∧ pe file = true
            ∧ c_file_suffixes.contains (pyLastSplit '.' file) = true) := by
  constructor
  · rw [branch_diff_files_eq_filter]
    exact List.filter_sublist _
  · intro file
    rw [mem_branch_diff_files]
    refine and_congr_right fun _ => and_congr_left fun _ => ?_
    constructor
    · intro hAny hex
      rw [List.any_eq_true.mpr hex] at hAny
      exact Bool.true_eq_false.mp hAny
    · intro hex
      cases hAny : ignored.any (fun ignore => pyStartswith file ignore)
      · rfl
      · exact absurd (List.any_eq_true.mp hAny) hex

/-- C2 counterexample: in ChangesetMode with a manifest whose entries have
no C suffix, the candidate list is empty, yet the program exits 0
(success) rather than failing with the NoFilesSelected error. -/
theorem C2_counterexample :
    (cformat
        { all_changed_files := ["docs/readme.md"], c_source_files := [],
          git_diff_returncode := 0, git_diff_stdout := "", git_diff_stderr := "",
          path_exists := fun _ => false, which := fun _ => false,
          diff_returncode := fun _ => 0, diff_stdout := fun _ => "",
          run_returncode := fun _ => 0 }
        { ci := true, dry_run := false, base_branch := "origin/master",
          all_files := false, files := [] }).result = CformatResult.exitZero
    ∧ CformatResult.exitZero ≠ CformatResult.ret false := by decide

/-- C2 (amended): in AllFilesMode and BranchDiffMode (any non-CI invocation
reaching the sanity check), an empty candidate list makes the invocation
log the no-files error advising `qmk cformat -a`, return false, and spawn
no formatter process; ChangesetMode with an empty match instead exits 0,
and ExplicitFilesMode is only entered with a non-empty list. -/
theorem C2_amended_no_files_selected (env : Env) (args : Args)
    (hci : args.ci = false) (hfiles : args.files = [])
    (hgit : env.git_diff_returncode = 0)
    (hsel : (if args.all_files then all_files_filter env.c_source_files
             else branch_diff_files env.path_exists env.git_diff_stdout) = []) :
    cformat env args =
      { result := CformatResult.ret false, spawned := [], warnings := [],
        errors := ["No changed files detected. Use \"qmk cformat -a\" to format all files"],
        printed := [] } := by
  cases hall : args.all_files
  · rw [hall] at hsel
    simp at hsel
    simp [cformat, cformat_select, cformat_warnings, hci, hfiles, hall, hgit, hsel]
  · rw [hall] at hsel
    simp at hsel
    simp [cformat, cformat_select, cformat_warnings, hci, hfiles, hall, hgit, hsel]

/-- C2 witness: AllFilesMode whose enumeration is entirely ignored leaves an
empty candidate list and fails. -/
theorem C2_amended_witness :
    cformat
        { all_changed_files := [], c_source_files := ["quantum/template/x.c"],
          git_diff_returncode := 0, git_diff_stdout := "", git_diff_stderr := "",
          path_exists := fun _ => false, which := fun _ => false,
          diff_returncode := fun _ => 0, diff_stdout := fun _ => "",
          run_returncode := fun _ => 0 }
        { ci := false, dry_run := false, base_branch := "origin/master",
          all_files := true, files := [] }
      = { result := CformatResult.ret false, spawned := [], warnings := [],
          errors := ["No changed files detected. Use \"qmk cformat -a\" to format all files"],
          printed := [] } :=
  C2_amended_no_files_selected _ _ rfl rfl rfl (by decide)

/-- C4: in dry-run mode on a selected non-empty file list, one formatter
process is spawned per file, in list order and never short-circuited; the
drift flag is true iff some file's diff comparison exits non-zero; and the
invocation returns success (true) iff no file drifted. -/
theorem C4_dry_run_drift (env : Env) (args : Args) (files : List String)
    (hdry : args.dry_run = true)
    (hsel : cformat_select env args = Selection.selected files)
    (hne : files ≠ []) :
    (find_diffs env.which env.diff_returncode env.diff_stdout files).2.1
      = files.map (fun file => [find_clang_format env.which, file])
    ∧ ((find_diffs env.which env.diff_returncode env.diff_stdout files).1 = true
        ↔ ∃ file ∈ files, env.diff_returncode file ≠ 0)
    ∧ (cformat env args).result
        = CformatResult.ret
            (!(find_diffs env.which env.diff_returncode env.diff_stdout files).1)
    ∧ ((cformat env args).result = CformatResult.ret true
        ↔ ∀ file ∈ files, env.diff_returncode file = 0) := by
  have hfd := find_diffs_eq env.which env.diff_returncode env.diff_stdout files
  have h1 : (find_diffs env.which env.diff_returncode env.diff_stdout files).2.1
      = files.map (fun file => [find_clang_format env.which, file]) := by
    rw [hfd]
  have h2 : (find_diffs env.which env.diff_returncode env.diff_stdout files).1 = true
      ↔ ∃ file ∈ files, env.diff_returncode file ≠ 0 := by
    rw [hfd]
    simp [List.any_eq_true]
  have h3 : (cformat env args).result
      = CformatResult.ret
          (!(find_diffs env.which env.diff_returncode env.diff_stdout files).1) := by
    simp [cformat, hsel, hdry, List.isEmpty_eq_false.mpr hne]
  refine ⟨h1, h2, h3, ?_⟩
  rw [h3]
  constructor
  · intro hret file hf
    have hflag : (find_diffs env.which env.diff_returncode env.diff_stdout files).1
        = false := by
      have := CformatResult.ret.inj hret
      cases hb : (find_diffs env.which env.diff_returncode env.diff_stdout files).1
      · rfl
      · rw [hb] at this; exact absurd this (by simp)
    by_contra hne0
    have : (find_diffs env.which env.diff_returncode env.diff_stdout files).1 = true :=
      h2.mpr ⟨file, hf, hne0⟩
    rw [this] at hflag
    exact Bool.true_eq_false.mp hflag
  · intro hall
    have hflag : (find_diffs env.which env.diff_returncode env.diff_stdout files).1
        = false := by
      cases hb : (find_diffs env.which env.diff_returncode env.diff_stdout files).1
      · rfl
      · obtain ⟨file, hf, hne0⟩ := h2.mp hb
        exact absurd (hall file hf) hne0
    rw [hflag]
    rfl

/-- C4 witness: dry-run over two explicit files, the first drifted, checks
both files and returns failure. -/
theorem C4_witness :
    (cformat
        { all_changed_files := [], c_source_files := [],
          git_diff_returncode := 0, git_diff_stdout := "", git_diff_stderr := "",
          path_exists := fun _ => true, which := fun _ => false,
          diff_returncode := fun f => if f == "a.c" then 1 else 0,
          diff_stdout := fun _ => "", run_returncode := fun _ => 0 }
        { ci := false, dry_run := true, base_branch := "origin/master",
          all_files := false, files := ["a.c", "b.h"] }).result
      = CformatResult.ret false :=
  ((C4_dry_run_drift
      { all_changed_files := [], c_source_files := [],
        git_diff_returncode := 0, git_diff_stdout := "", git_diff_stderr := "",
        path_exists := fun _ => true, which := fun _ => false,
        diff_returncode := fun f => if f == "a.c" then 1 else 0,
        diff_stdout := fun _ => "", run_returncode := fun _ => 0 }
      { ci := false, dry_run := true, base_branch := "origin/master",
        all_files := false, files := ["a.c", "b.h"] }
      ["a.c", "b.h"] rfl rfl (by decide)).2.2.1).trans (by decide)

/-- C5: ChangesetMode filters the manifest to the entries whose suffix is in
`c_file_suffixes`, preserving their order; the spec's scenario manifest
yields exactly `["src/a.c"]`; and when nothing matches, the invocation
exits 0 with no formatter process spawned. -/
theorem C5_changeset_selection (env : Env) (args : Args) (hci : args.ci = true) :
    List.Sublist (ci_files env.all_changed_files) env.all_changed_files
    ∧ (∀ file : String,
        file ∈ ci_files env.all_changed_files ↔
          (file ∈ env.all_changed_files
            ∧ c_file_suffixes.contains (pyLastSplit '.' file) = true))
    ∧ ci_files ["src/a.c", "src/a.py", "docs/readme.md"] = ["src/a.c"]
    ∧ (ci_files env.all_changed_files = [] →
        cformat env args =
          { result := CformatResult.exitZero, spawned := [],
            warnings := cformat_warnings args, errors := [], printed := [] }) := by
  refine ⟨List.filter_sublist _, ?_, by decide, ?_⟩
  · intro file
    rw [ci_files, List.mem_filter]
  · intro hempty
    simp [cformat, cformat_select, hci, hempty]

/-- C5 witness: a manifest with only non-C files exits 0 with nothing
spawned. -/
theorem C5_witness :
    cformat
        { all_changed_files := ["docs/readme.md", "keyboards/foo/rules.mk"],
          c_source_files := [], git_diff_returncode := 0, git_diff_stdout := "",
          git_diff_stderr := "", path_exists := fun _ => false,
          which := fun _ => false, diff_returncode := fun _ => 0,
          diff_stdout := fun _ => "", run_returncode := fun _ => 0 }
        { ci := true, dry_run := false, base_branch := "origin/master",
          all_files := false, files := [] }
      = { result := CformatResult.exitZero, spawned := [], warnings := [],
          errors := [], printed := [] } :=
  (C5_changeset_selection _ _ rfl).2.2.2 (by decide)

/-- C6: when explicit files are passed (without `--ci`), the candidate list
is exactly the supplied, normalized list, order preserved, with no suffix
filtering; when the all-files flag is also set, a warning that it is
ignored is emitted and the explicit list is still used. -/
theorem C6_explicit_files (env : Env) (args : Args)
    (hci : args.ci = false) (hne : args.files ≠ []) :
    cformat_select env args = Selection.selected args.files
    ∧ cformat_warnings args
        = (if args.all_files then ["Filenames passed with -a, only formatting: %s"]
           else []) := by
  constructor
  · simp [cformat_select, hci, List.isEmpty_eq_false.mpr hne]
  · simp [cformat_warnings, hci, List.isEmpty_eq_false.mpr hne]

/-- C6 witness: an explicit list with a non-C suffix and the all-files flag
set is returned unchanged, with the -a warning. -/
theorem C6_witness :
    cformat_select
        { all_changed_files := [], c_source_files := ["quantum/core.c"],
          git_diff_returncode := 0, git_diff_stdout := "", git_diff_stderr := "",
          path_exists := fun _ => false, which := fun _ => false,
          diff_returncode := fun _ => 0, diff_stdout := fun _ => "",
          run_returncode := fun _ => 0 }
        { ci := false, dry_run := false, base_branch := "origin/master",
          all_files := true, files := ["notes.txt", "keyboards/foo/keymap.c"] }
      = Selection.selected ["notes.txt", "keyboards/foo/keymap.c"]
    ∧ cformat_warnings
        { ci := false, dry_run := false, base_branch := "origin/master",
          all_files := true, files := ["notes.txt", "keyboards/foo/keymap.c"] }
      = ["Filenames passed with -a, only formatting: %s"] :=
  ⟨(C6_explicit_files _ _ rfl (by decide)).1,
   (C6_explicit_files
      { all_changed_files := [], c_source_files := ["quantum/core.c"],
        git_diff_returncode := 0, git_diff_stdout := "", git_diff_stderr := "",
        path_exists := fun _ => false, which := fun _ => false,
        diff_returncode := fun _ => 0, diff_stdout := fun _ => "",
        run_returncode := fun _ => 0 }
      _ rfl (by decide)).2⟩

/-- C8: when the git diff subprocess exits non-zero in BranchDiffMode, the
invocation returns that non-zero code, logs the failed command, prints the
captured stderr, spawns no formatter process, and selects no files — no
fallback to another mode occurs. -/
theorem C8_git_diff_failure (env : Env) (args : Args)
    (hci : args.ci = false) (hfiles : args.files = [])
    (hall : args.all_files = false) (hrc : env.git_diff_returncode ≠ 0) :
    cformat env args =
      { result := CformatResult.retCode env.git_diff_returncode, spawned := [],
        warnings := [], errors := ["Error running %s"],
        printed := [env.git_diff_stderr] }
    ∧ cformat_select env args = Selection.gitFailed env.git_diff_returncode := by
  have hsel : cformat_select env args = Selection.gitFailed env.git_diff_returncode := by
    simp [cformat_select, hci, hfiles, hall, hrc]
  exact ⟨by simp [cformat, hsel, cformat_warnings, hci, hfiles], hsel⟩

/-- C8 witness: a failing diff (exit 128) aborts with its code and stderr,
with nothing spawned. -/
theorem C8_witness :
    cformat
        { all_changed_files := [], c_source_files := [],
          git_diff_returncode := 128, git_diff_stdout := "",
          git_diff_stderr := "fatal: bad revision", path_exists := fun _ => true,
          which := fun _ => false, diff_returncode := fun _ => 0,
          diff_stdout := fun _ => "", run_returncode := fun _ => 0 }
        { ci := false, dry_run := false, base_branch := "origin/master",
          all_files := false, files := [] }
      = { result := CformatResult.retCode 128, spawned := [], warnings := [],
          errors := ["Error running %s"], printed := ["fatal: bad revision"] } :=
  (C8_git_diff_failure _ _ rfl rfl rfl (by decide)).1

/-- C10: for a dotless path, Python's `split('.')[-1]` is the whole path, so
a changed file whose full path is exactly "c", "h" or "cpp" passes the
suffix filter of ChangesetMode and BranchDiffMode, and every other dotless
path is excluded by it. -/
theorem C10_dotless_suffix (s : String) (h : '.' ∉ s.data) :
    pyLastSplit '.' s = s
    ∧ (c_file_suffixes.contains (pyLastSplit '.' s) = true ↔ s ∈ c_file_suffixes)
    ∧ ci_files [s] = (if s ∈ c_file_suffixes then [s] else [])
    ∧ (∀ (pe : String → Bool) (stdout : String),
        s ∈ branch_diff_files pe stdout → (s ∈ c_file_suffixes ∧ pe s = true)) := by
  have h1 : pyLastSplit '.' s = s := pyLastSplit_of_not_mem '.' s h
  refine ⟨h1, by simp [h1], ?_, ?_⟩
  · simp only [ci_files, List.filter, h1]
    cases hs : c_file_suffixes.contains s
    · rw [if_neg (by simpa using hs)]
    · rw [if_pos (by simpa using hs)]
  · intro pe stdout hmem
    rw [mem_branch_diff_files] at hmem
    obtain ⟨-, -, hpe, hcontains⟩ := hmem
    rw [h1] at hcontains
    exact ⟨by simpa using hcontains, hpe⟩

/-- C10 witness: a changed file whose full path is "cpp" passes the CI
suffix filter, while the dotless "makefile" is excluded. -/
theorem C10_witness :
    ci_files ["cpp"] = ["cpp"] ∧ ci_files ["makefile"] = [] :=
  ⟨((C10_dotless_suffix "cpp" (by decide)).2.2.1).trans (by decide),
   ((C10_dotless_suffix "makefile" (by decide)).2.2.1).trans (by decide)⟩

end QMK
